import Mathlib

/-!
Shallow embedding of `strawberry/field.py`: the field-descriptor lifecycle
(FieldDefinition, StrawberryField binder, the `field` entry point and the
explicit return-annotation validator).

External collaborators (`to_camel_case`, `get_arguments_from_resolver`) are
not part of the source fragment; they are passed as opaque function
parameters everywhere, matching their interface boundary.

Python truthiness of optional strings (`None` and `""` are falsy) is modelled
by `pyTruthy`.
-/

/-- Type annotations are opaque tokens to this core. -/
abbrev Ty := String

/-- Access-control policy references, stored verbatim and never inspected. -/
abbrev Perm := String

/-- A resolver callable: its `__name__` and the result of
`typing.get_type_hints(resolver).get("return")` (none when no return
annotation is declared). -/
structure Resolver where
  name : String
  returnType : Option Ty
  deriving DecidableEq

/-- An argument descriptor produced by the external argument-extraction
collaborator; opaque to this core. -/
structure Arg where
  label : Option String
  deriving DecidableEq

/-- `FederationFieldParams`; `Fed.empty` is the default empty instance. -/
inductive Fed
  | empty
  deriving DecidableEq

/-- `FieldDefinition` from `strawberry.types.types`: a mutable record of
field metadata, mutated in place by the binder. -/
structure FieldDefinition where
  name : Option String
  origin_name : Option String
  type : Option Ty
  origin : Option Resolver
  description : Option String
  base_resolver : Option Resolver
  is_subscription : Bool
  permission_classes : List Perm
  arguments : List Arg
  federation : Fed
  deriving DecidableEq

/-- Python truthiness of an optional string: `None` and `""` are falsy. -/
def pyTruthy : Option String → Bool
  | none => false
  | some s => s != ""

/-- The `dataclasses.MISSING` sentinel. -/
inductive DCSentinel
  | MISSING
  deriving DecidableEq

/-- The binder: `StrawberryField(dataclasses.Field)`. Besides the wrapped
`_field_definition` it carries the plain attribute storage that
`dataclasses.Field.__init__` writes (`name`, `type`, and the dataclass
parameters). -/
structure StrawberryField where
  field_definition : FieldDefinition
  name : Option String
  type : Option Ty
  default : DCSentinel
  default_factory : DCSentinel
  init : Bool
  repr : Bool
  hash : Option Bool
  compare : Bool
  metadata : Option Unit
  deriving DecidableEq

/-- `StrawberryField.__init__(field_definition)`: stores the descriptor, then
`super().__init__(...)` runs `dataclasses.Field.__init__`, whose attribute
writes are routed through the overridden `__setattr__`:
`self.name = None` is a falsy name write (not mirrored into the descriptor,
only stored), `self.type = None` is mirrored into the descriptor
unconditionally, and the remaining dataclass parameters are plain storage.
`init` is the value of `field_definition.base_resolver is None`. -/
def mkStrawberryField (fd : FieldDefinition) : StrawberryField :=
  { field_definition := { fd with type := none }
    name := none
    type := none
    default := DCSentinel.MISSING
    default_factory := DCSentinel.MISSING
    init := fd.base_resolver.isNone
    repr := true
    hash := none
    compare := true
    metadata := none }

/-- `StrawberryField.__setattr__` for a write to the intercepted `name`
attribute: on a truthy value, set the descriptor's `origin_name` to the raw
value if it is falsy, and the descriptor's `name` to the case-converted value
if it is falsy; then `super().__setattr__` stores the raw value on the
binder. -/
def setattrName (to_camel_case : String → String) (s : StrawberryField)
    (v : Option String) : StrawberryField :=
  let fd := s.field_definition
  let fd :=
    if pyTruthy v then
      let fd :=
        if pyTruthy fd.origin_name then fd else { fd with origin_name := v }
      if pyTruthy fd.name then fd else { fd with name := v.map to_camel_case }
    else fd
  { s with field_definition := fd, name := v }

/-- `StrawberryField.__setattr__` for a write to the intercepted `type`
attribute: mirrored into the descriptor unconditionally, then stored. -/
def setattrType (s : StrawberryField) (v : Option Ty) : StrawberryField :=
  { s with field_definition := { s.field_definition with type := v },
           type := v }

/-- The resolver object after the completion step installed the
back-reference `resolver._field_definition = field_definition`. -/
structure BoundResolver where
  resolver : Resolver
  field_definition : FieldDefinition
  deriving DecidableEq

/-- `StrawberryField.__call__(resolver)`, the completion step. It mutates the
shared `FieldDefinition` in place: `name = name or resolver_name`,
`origin_name = resolver_name` (unconditional), `origin = resolver`,
`arguments = get_arguments_from_resolver(resolver, self.name)` — note
`self.name` is the binder's own attribute, not the descriptor's `name` —
and `type = get_type_hints(resolver).get("return")`. It returns the resolver
carrying the back-reference; the binder keeps the same (updated) descriptor.
`base_resolver` is not assigned. -/
def StrawberryField.call (to_camel_case : String → String)
    (get_arguments_from_resolver : Resolver → Option String → List Arg)
    (s : StrawberryField) (r : Resolver) : StrawberryField × BoundResolver :=
  let fd := s.field_definition
  let resolver_name := to_camel_case r.name
  let fd :=
    { fd with name := if pyTruthy fd.name then fd.name else some resolver_name }
  let fd := { fd with origin_name := some resolver_name }
  let fd := { fd with origin := some r }
  let fd := { fd with arguments := get_arguments_from_resolver r s.name }
  let fd := { fd with type := r.returnType }
  ({ s with field_definition := fd }, { resolver := r, field_definition := fd })

/-- Errors surfaced by the validation entry point. `typeError` models the
`TypeError` that `typing.get_type_hints(None)` raises when
`base_resolver` is `None` (the `cast` in the source is a no-op). -/
inductive FieldError
  | missingReturnAnnotationError : Option String → FieldError
  | typeError : FieldError
  deriving DecidableEq

/-- `check_return_annotation(field_definition)`: raises
`MissingReturnAnnotationError(field_definition.name)` when the resolver's
type hints contain no `"return"` key; succeeds otherwise. -/
def check_return_annotation (fd : FieldDefinition) : Except FieldError Unit :=
  match fd.base_resolver with
  | some r =>
      if r.returnType = none then
        Except.error (FieldError.missingReturnAnnotationError fd.name)
      else Except.ok ()
  | none => Except.error FieldError.typeError

/-- Result of the `field(...)` entry point: the binder itself when no
resolver was supplied, else the resolver carrying the back-reference. -/
inductive FieldResult
  | binder : StrawberryField → FieldResult
  | resolver : BoundResolver → FieldResult
  deriving DecidableEq

/-- `permission_classes or []`: Python list truthiness (an empty list is
falsy). -/
def pyOrList (x : Option (List Perm)) : List Perm :=
  match x with
  | none => []
  | some l => if l.isEmpty then [] else l

/-- The `field(resolver=None, *, name=None, is_subscription=False,
description=None, permission_classes=None, federation=None)` entry point.
With a resolver: derive `resolver_name`, default `name` to it when falsy,
extract arguments with `resolver_name`; build the `FieldDefinition`; then
`StrawberryField(field_definition)(resolver)` and return the resolver.
Without a resolver: `resolver_name` is `None`, `arguments` empty, and the
binder itself is returned. `federation or FederationFieldParams()` keeps any
supplied instance (objects are truthy) and defaults to the empty instance. -/
def field (to_camel_case : String → String)
    (get_arguments_from_resolver : Resolver → Option String → List Arg)
    (resolver : Option Resolver) (name : Option String)
    (is_subscription : Bool) (description : Option String)
    (permission_classes : Option (List Perm)) (federation : Option Fed) :
    FieldResult :=
  let rna : Option String × Option String × List Arg :=
    match resolver with
    | some r =>
        let resolver_name := to_camel_case r.name
        let name := if pyTruthy name then name else some resolver_name
        (some resolver_name, name,
          get_arguments_from_resolver r (some resolver_name))
    | none => (none, name, [])
  let fd : FieldDefinition :=
    { name := rna.2.1
      origin_name := rna.1
      type := none
      origin := resolver
      description := description
      base_resolver := resolver
      is_subscription := is_subscription
      permission_classes := pyOrList permission_classes
      arguments := rna.2.2
      federation := federation.getD Fed.empty }
  match resolver with
  | some r =>
      FieldResult.resolver
        ((mkStrawberryField fd).call to_camel_case get_arguments_from_resolver
          r).2
  | none => FieldResult.binder (mkStrawberryField fd)

/-- The operations of this core that can touch a binder after construction:
intercepted attribute writes and the completion step. -/
inductive BinderOp
  | setName : Option String → BinderOp
  | setType : Option Ty → BinderOp
  | complete : Resolver → BinderOp

/-- Apply one binder operation. -/
def applyOp (to_camel_case : String → String)
    (get_arguments_from_resolver : Resolver → Option String → List Arg)
    (s : StrawberryField) : BinderOp → StrawberryField
  | BinderOp.setName v => setattrName to_camel_case s v
  | BinderOp.setType v => setattrType s v
  | BinderOp.complete r =>
      (s.call to_camel_case get_arguments_from_resolver r).1

/-! Concrete fixtures used by counterexamples and witnesses. -/

/-- Identity case conversion (camel case is idempotent on camel input). -/
def idCase : String → String := fun s => s

/-- An argument-extraction collaborator returning no arguments. -/
def noArgs : Resolver → Option String → List Arg := fun _ _ => []

/-- An argument-extraction collaborator that records the field name it was
handed, so the two candidate name sources can be told apart. -/
def tagArgs : Resolver → Option String → List Arg := fun _ n => [{ label := n }]

/-- A resolver named `fetchUser` with a declared return type. -/
def fetchUser : Resolver := { name := "fetchUser", returnType := some "User" }

/-- A resolver with no declared return type. -/
def noRet : Resolver := { name := "resolveThing", returnType := none }

/-- The binder produced by `field(name="user_id")` (no resolver): Declared
state with an explicit, unconverted name. -/
def declaredBinder : StrawberryField :=
  mkStrawberryField
    { name := some "user_id"
      origin_name := none
      type := none
      origin := none
      description := none
      base_resolver := none
      is_subscription := false
      permission_classes := []
      arguments := []
      federation := Fed.empty }

/-- The binder produced by `field()` with neither resolver nor name. -/
def declaredNoName : StrawberryField :=
  mkStrawberryField
    { name := none
      origin_name := none
      type := none
      origin := none
      description := none
      base_resolver := none
      is_subscription := false
      permission_classes := []
      arguments := []
      federation := Fed.empty }

/-- The binder produced by `field(name="")`: its descriptor's `name` holds
the empty string. -/
def emptyNameBinder : StrawberryField :=
  mkStrawberryField
    { name := some ""
      origin_name := none
      type := none
      origin := none
      description := none
      base_resolver := none
      is_subscription := false
      permission_classes := []
      arguments := []
      federation := Fed.empty }

/-- A descriptor in Bound shape whose resolver lacks a return annotation. -/
def boundFd : FieldDefinition :=
  { name := some "resolveThing"
    origin_name := some "resolveThing"
    type := none
    origin := some noRet
    description := none
    base_resolver := some noRet
    is_subscription := false
    permission_classes := []
    arguments := []
    federation := Fed.empty }

/-! Helper lemmas. -/

/-- A `name` attribute write never changes the descriptor's `origin`. -/
theorem setattrName_origin (tc : String → String) (s : StrawberryField)
    (v : Option String) :
    (setattrName tc s v).field_definition.origin = s.field_definition.origin := by
  unfold setattrName
  dsimp only
  split
  · split <;> split <;> rfl
  · rfl

/-- No binder operation can make the descriptor's `origin` unset again. -/
theorem applyOp_origin_isSome (tc : String → String)
    (ga : Resolver → Option String → List Arg) (s : StrawberryField)
    (op : BinderOp) (h : s.field_definition.origin.isSome = true) :
    ((applyOp tc ga s op).field_definition.origin).isSome = true := by
  cases op with
  | setName v => rw [applyOp, setattrName_origin]; exact h
  | setType v => exact h
  | complete r => rfl

/-- Folding any operation sequence preserves a set `origin`. -/
theorem foldl_applyOp_origin_isSome (tc : String → String)
    (ga : Resolver → Option String → List Arg) (ops : List BinderOp) :
    ∀ s : StrawberryField, s.field_definition.origin.isSome = true →
      ((ops.foldl (applyOp tc ga) s).field_definition.origin).isSome = true := by
  induction ops with
  | nil => intro s h; exact h
  | cons op ops ih =>
      intro s h
      exact ih _ (applyOp_origin_isSome tc ga s op h)

/-! Claim theorems. -/

/-- C1 counterexample: completing the Declared binder built by
`field(name="user_id")` with the `fetchUser` resolver leaves
`base_resolver` unset on the shared descriptor (both on the binder and on
the returned resolver's back-reference), so the completion step does not
produce a state in which `base_resolver` is set. -/
theorem c1_counterexample :
    field idCase noArgs none (some "user_id") false none none none =
      FieldResult.binder declaredBinder ∧
    declaredBinder.field_definition.base_resolver = none ∧
    ((declaredBinder.call idCase noArgs fetchUser).1).field_definition.base_resolver
      = none ∧
    ((declaredBinder.call idCase noArgs fetchUser).2).field_definition.base_resolver
      = none := by
  refine ⟨rfl, rfl, rfl, rfl⟩

/-- C1 (amended): invoking the completion step on a descriptor constructed
without a resolver populates `name`, `origin_name`, `origin`, `arguments`
and `type`, but leaves `base_resolver` unchanged (still unset); `origin`,
not `base_resolver`, records the binding, and once `origin` is set no
sequence of core operations makes it unset again. -/
theorem c1_theorem (tc : String → String)
    (ga : Resolver → Option String → List Arg) (s : StrawberryField)
    (r : Resolver) (ops : List BinderOp) :
    ((s.call tc ga r).1).field_definition.origin = some r ∧
    ((s.call tc ga r).1).field_definition.origin_name = some (tc r.name) ∧
    ((s.call tc ga r).1).field_definition.name =
      (if pyTruthy s.field_definition.name then s.field_definition.name
       else some (tc r.name)) ∧
    ((s.call tc ga r).1).field_definition.type = r.returnType ∧
    ((s.call tc ga r).1).field_definition.arguments = ga r s.name ∧
    ((s.call tc ga r).1).field_definition.base_resolver =
      s.field_definition.base_resolver ∧
    ((ops.foldl (applyOp tc ga) ((s.call tc ga r).1)).field_definition.origin).isSome
      = true :=
  ⟨rfl, rfl, rfl, rfl, rfl, rfl,
    foldl_applyOp_origin_isSome tc ga ops _ rfl⟩

/-- C3: the completion step sets the descriptor's `origin_name` to the
case-converted resolver identifier unconditionally, whatever value was there
before (including one set by an intervening intercepted `name` write), on
both the binder's descriptor and the resolver's back-reference. -/
theorem c3_theorem (tc : String → String)
    (ga : Resolver → Option String → List Arg) (s : StrawberryField)
    (r : Resolver) :
    ((s.call tc ga r).1).field_definition.origin_name = some (tc r.name) ∧
    ((s.call tc ga r).2).field_definition.origin_name = some (tc r.name) :=
  ⟨rfl, rfl⟩

/-- C4 counterexample: the binder built by `field(name="user_id")` has
descriptor `name = "user_id"` but binder attribute `name = None`; completing
it hands the argument-extraction collaborator `None`, not the descriptor's
current name, so with a collaborator that records the name it received the
recomputed `arguments` differ from what the claim predicts. -/
theorem c4_counterexample :
    declaredBinder.field_definition.name = some "user_id" ∧
    declaredBinder.name = none ∧
    ((declaredBinder.call idCase tagArgs fetchUser).1).field_definition.arguments
      = [{ label := none }] ∧
    tagArgs fetchUser declaredBinder.field_definition.name
      = [{ label := some "user_id" }] ∧
    ((declaredBinder.call idCase tagArgs fetchUser).1).field_definition.arguments
      ≠ tagArgs fetchUser declaredBinder.field_definition.name := by
  refine ⟨rfl, rfl, rfl, rfl, by decide⟩

/-- C4 (amended): the completion step recomputes `arguments` by calling the
external argument-extraction collaborator with the resolver and the binder's
own stored `name` attribute (which starts unset and can differ from the
descriptor's `name`). -/
theorem c4_theorem (tc : String → String)
    (ga : Resolver → Option String → List Arg) (s : StrawberryField)
    (r : Resolver) :
    ((s.call tc ga r).1).field_definition.arguments = ga r s.name ∧
    ((s.call tc ga r).2).field_definition.arguments = ga r s.name :=
  ⟨rfl, rfl⟩

/-- C8: calling `field` without a resolver returns the binder itself, whose
descriptor has empty `arguments`, unset `origin_name`, unset `base_resolver`
(Declared state), and `name` exactly as supplied — no case conversion — or
unset when none was given. -/
theorem c8_theorem (tc : String → String)
    (ga : Resolver → Option String → List Arg) (nm : Option String)
    (sub : Bool) (d : Option String) (p : Option (List Perm))
    (f : Option Fed) :
    ∃ b : StrawberryField,
      field tc ga none nm sub d p f = FieldResult.binder b ∧
      b.field_definition.arguments = [] ∧
      b.field_definition.origin_name = none ∧
      b.field_definition.base_resolver = none ∧
      b.field_definition.name = nm :=
  ⟨_, rfl, rfl, rfl, rfl, rfl⟩

/-- C10: the binder is constructed with dataclass `init` equal to whether
the descriptor's `base_resolver` is unset, and with the other dataclass
parameters fixed constants independent of the descriptor. -/
theorem c10_theorem (fd : FieldDefinition) :
    (mkStrawberryField fd).init = fd.base_resolver.isNone ∧
    (mkStrawberryField fd).default = DCSentinel.MISSING ∧
    (mkStrawberryField fd).default_factory = DCSentinel.MISSING ∧
    (mkStrawberryField fd).repr = true ∧
    (mkStrawberryField fd).hash = none ∧
    (mkStrawberryField fd).compare = true ∧
    (mkStrawberryField fd).metadata = none :=
  ⟨rfl, rfl, rfl, rfl, rfl, rfl, rfl⟩

/-- A `name` attribute write preserves a truthy `origin_name`. -/
theorem setattrName_origin_name_of_truthy (tc : String → String)
    (s : StrawberryField) (v : Option String)
    (h : pyTruthy s.field_definition.origin_name = true) :
    (setattrName tc s v).field_definition.origin_name =
      s.field_definition.origin_name := by
  by_cases hv : pyTruthy v = true <;>
    by_cases hn : pyTruthy s.field_definition.name = true <;>
      simp [setattrName, hv, hn, h]

/-- A `name` attribute write preserves a truthy descriptor `name`. -/
theorem setattrName_name_of_truthy (tc : String → String)
    (s : StrawberryField) (v : Option String)
    (h : pyTruthy s.field_definition.name = true) :
    (setattrName tc s v).field_definition.name =
      s.field_definition.name := by
  by_cases hv : pyTruthy v = true <;>
    by_cases ho : pyTruthy s.field_definition.origin_name = true <;>
      simp [setattrName, hv, ho, h]

/-- C2 counterexample: on the binder built by `field()` (no resolver, no
name), an intercepted `name` write first assigns `origin_name = "user_id"`;
the later completion step with `fetchUser` overwrites it to `"fetchUser"`,
so `origin_name` is not write-once. -/
theorem c2_counterexample :
    field idCase noArgs none none false none none none =
      FieldResult.binder declaredNoName ∧
    (setattrName idCase declaredNoName (some "user_id")).field_definition.origin_name
      = some "user_id" ∧
    (((setattrName idCase declaredNoName (some "user_id")).call idCase noArgs
        fetchUser).1).field_definition.origin_name = some "fetchUser" ∧
    (some "fetchUser" : Option String) ≠ some "user_id" := by
  refine ⟨rfl, by decide, by decide, by decide⟩

/-- C2 (amended): once `origin_name` holds a truthy value, no intercepted
attribute write (`name` or `type`) overwrites it; only the completion step
can change it, and it sets it to the case-converted resolver identifier. -/
theorem c2_theorem (tc : String → String)
    (ga : Resolver → Option String → List Arg) (s : StrawberryField)
    (v : Option String) (ty : Option Ty) (r : Resolver)
    (h : pyTruthy s.field_definition.origin_name = true) :
    (setattrName tc s v).field_definition.origin_name =
      s.field_definition.origin_name ∧
    (setattrType s ty).field_definition.origin_name =
      s.field_definition.origin_name ∧
    ((s.call tc ga r).1).field_definition.origin_name = some (tc r.name) :=
  ⟨setattrName_origin_name_of_truthy tc s v h, rfl, rfl⟩

/-- C2 witness: concrete instance of the amended claim on the binder whose
`origin_name` was set to `"user_id"` by an intercepted write. -/
theorem c2_witness :
    (setattrName idCase (setattrName idCase declaredNoName (some "user_id"))
        (some "other")).field_definition.origin_name = some "user_id" ∧
    (setattrType (setattrName idCase declaredNoName (some "user_id"))
        (some "Int")).field_definition.origin_name = some "user_id" ∧
    (((setattrName idCase declaredNoName (some "user_id")).call idCase noArgs
        fetchUser).1).field_definition.origin_name = some "fetchUser" := by
  have h := c2_theorem idCase noArgs
    (setattrName idCase declaredNoName (some "user_id")) (some "other")
    (some "Int") fetchUser (by decide)
  exact ⟨h.1.trans (by decide), h.2.1.trans (by decide), h.2.2⟩

/-- C5: the completion step keeps a truthy (set) descriptor `name`
unchanged, and replaces an unset (`None`) `name` with the case-converted
resolver identifier. -/
theorem c5_theorem (tc : String → String)
    (ga : Resolver → Option String → List Arg) (s : StrawberryField)
    (r : Resolver) :
    (pyTruthy s.field_definition.name = true →
      ((s.call tc ga r).1).field_definition.name = s.field_definition.name) ∧
    (s.field_definition.name = none →
      ((s.call tc ga r).1).field_definition.name = some (tc r.name)) := by
  constructor
  · intro h
    show (if pyTruthy s.field_definition.name then s.field_definition.name
          else some (tc r.name)) = s.field_definition.name
    simp [h]
  · intro h
    show (if pyTruthy s.field_definition.name then s.field_definition.name
          else some (tc r.name)) = some (tc r.name)
    simp [h, pyTruthy]

/-- C5 witness: completing the binder with explicit name `"user_id"` keeps
it; completing the nameless binder takes the resolver's name. -/
theorem c5_witness :
    ((declaredBinder.call idCase noArgs fetchUser).1).field_definition.name
      = some "user_id" ∧
    ((declaredNoName.call idCase noArgs fetchUser).1).field_definition.name
      = some "fetchUser" :=
  ⟨(c5_theorem idCase noArgs declaredBinder fetchUser).1 (by decide),
   (c5_theorem idCase noArgs declaredNoName fetchUser).2 rfl⟩

/-- C6: writing a non-empty value `v` to the intercepted `name` attribute
when the descriptor's `origin_name` and `name` are both falsy (unset) sets
`origin_name` to the raw `v` and `name` to the case-converted `v`; truthy
(already set) values of either are not clobbered by such a write. -/
theorem c6_theorem (tc : String → String) (s : StrawberryField) (v : String)
    (hv : v ≠ "") :
    (pyTruthy s.field_definition.origin_name = false ∧
       pyTruthy s.field_definition.name = false →
      (setattrName tc s (some v)).field_definition.origin_name = some v ∧
      (setattrName tc s (some v)).field_definition.name = some (tc v)) ∧
    (pyTruthy s.field_definition.origin_name = true →
      (setattrName tc s (some v)).field_definition.origin_name =
        s.field_definition.origin_name) ∧
    (pyTruthy s.field_definition.name = true →
      (setattrName tc s (some v)).field_definition.name =
        s.field_definition.name) := by
  have hvt : pyTruthy (some v) = true := by simp [pyTruthy, hv]
  refine ⟨fun h => ?_, fun h => setattrName_origin_name_of_truthy tc s _ h,
    fun h => setattrName_name_of_truthy tc s _ h⟩
  constructor <;> simp [setattrName, hvt, h.1, h.2]

/-- C6 witness: writing `"user_id"` to the nameless Declared binder sets
both names; on binders with a truthy `origin_name` or `name`, the set value
survives the write. -/
theorem c6_witness :
    ((setattrName idCase declaredNoName (some "user_id")).field_definition.origin_name
        = some "user_id" ∧
      (setattrName idCase declaredNoName (some "user_id")).field_definition.name
        = some "user_id") ∧
    (setattrName idCase declaredBinder (some "other")).field_definition.name
      = some "user_id" :=
  ⟨(c6_theorem idCase declaredNoName "user_id" (by decide)).1 ⟨rfl, rfl⟩,
   ((c6_theorem idCase declaredBinder "other" (by decide)).2.2
      (by decide)).trans (by decide)⟩

/-- C7: with `base_resolver` bound, the explicit validation entry point
fails with `MissingReturnAnnotationError` carrying the field's name exactly
when the resolver has no declared return type; the completion step (a total
function in this model — it never raises) sets `type` to the resolver's
return annotation, hence leaves it unset when there is none. -/
theorem c7_theorem (fd : FieldDefinition) (r : Resolver)
    (h : fd.base_resolver = some r) (tc : String → String)
    (ga : Resolver → Option String → List Arg) (s : StrawberryField) :
    ( check_return_annotation fd =
        Except.error (FieldError.missingReturnAnnotationError fd.name) ↔
      r.returnType = none) ∧
    ((s.call tc ga r).1).field_definition.type = r.returnType ∧
    (r.returnType = none →
      ((s.call tc ga r).1).field_definition.type = none) := by
  refine ⟨?_, rfl, fun hr => ?_⟩
  · unfold check_return_annotation
    rw [h]
    by_cases hr : r.returnType = none <;> simp [hr]
  · show r.returnType = none
    exact hr

/-- C7 witness: on the bound descriptor whose resolver lacks a return
annotation, validation fails carrying the field name, and completion with
that resolver leaves `type` unset. -/
theorem c7_witness :
    ( check_return_annotation boundFd =
        Except.error (FieldError.missingReturnAnnotationError
          (some "resolveThing"))) ∧
    ((declaredNoName.call idCase noArgs noRet).1).field_definition.type
      = none :=
  ⟨(c7_theorem boundFd noRet rfl idCase noArgs declaredNoName).1.mpr rfl,
   (c7_theorem boundFd noRet rfl idCase noArgs declaredNoName).2.2 rfl⟩

/-- C9: the completion step treats an empty-string `name` as unset and
replaces it with the case-converted resolver identifier; only a truthy
(non-empty) `name` survives completion. -/
theorem c9_theorem (tc : String → String)
    (ga : Resolver → Option String → List Arg) (s : StrawberryField)
    (r : Resolver) (h : s.field_definition.name = some "") :
    ((s.call tc ga r).1).field_definition.name = some (tc r.name) ∧
    (∀ s2 : StrawberryField, pyTruthy s2.field_definition.name = true →
      ((s2.call tc ga r).1).field_definition.name =
        s2.field_definition.name) := by
  constructor
  · show (if pyTruthy s.field_definition.name then s.field_definition.name
          else some (tc r.name)) = some (tc r.name)
    rw [h]
    rfl
  · intro s2 h2
    show (if pyTruthy s2.field_definition.name then s2.field_definition.name
          else some (tc r.name)) = s2.field_definition.name
    simp [h2]

/-- C9 witness: the binder from `field(name="")` completes to the
resolver's name, while a non-empty explicit name is preserved. -/
theorem c9_witness :
    field idCase noArgs none (some "") false none none none =
      FieldResult.binder emptyNameBinder ∧
    ((emptyNameBinder.call idCase noArgs fetchUser).1).field_definition.name
      = some "fetchUser" ∧
    ((declaredBinder.call idCase noArgs fetchUser).1).field_definition.name
      = some "user_id" :=
  ⟨rfl, (c9_theorem idCase noArgs emptyNameBinder fetchUser rfl).1,
   (c9_theorem idCase noArgs emptyNameBinder fetchUser rfl).2 declaredBinder
     (by decide)⟩
